import Mathlib

/-!
Verification development for the clinic appointment optimizer.

The embedding below translates the Python services in
`backend/api/services/simulation_service.py` and
`backend/api/services/prediction_service.py` into Lean definitions.
Python floats are modelled as rationals (all constants appearing in the
code are exact decimals), Python `int(...)` as truncation toward zero,
and Python `round(...)` as round-half-to-even.
-/

/-- Computable floor of a rational: `q.num / q.den` with integer euclidean
division (the denominator is positive, so this is the mathematical floor). -/
def ratFloor (q : ℚ) : ℤ := q.num / q.den

/-- Python `int(x)` applied to a float/real value: truncation toward zero. -/
def pyInt (q : ℚ) : ℤ := if 0 ≤ q then ratFloor q else -(ratFloor (-q))

/-- Python `round(x)`: round half to even (banker's rounding); written with
`ratFloor` so that it evaluates by kernel reduction. -/
def pyRound (q : ℚ) : ℤ :=
  if q - ratFloor q = 1/2 then
    (if 2 ∣ ratFloor q then ratFloor q else ratFloor q + 1)
  else ratFloor (q + 1/2)

/-- pandas `Series.clip(lo, hi)` applied entrywise. -/
def clip (lo hi q : ℚ) : ℚ := min hi (max lo q)

/-! ### Clinic Queue Simulator (`simulation_service._simulate_clinic`)

The service times are drawn from `random.uniform`, so the wait/utilization
outputs are stochastic; the arrival schedule, theoretical capacity and
overflow are deterministic and are embedded below.
-/

/-- Arrival times of the patient processes in `_simulate_clinic`
(lines 63-68).  The loop body runs `env.process(patient())` and then
`env.timeout(interval)`; the timeout event is created but its result is
discarded (it is never yielded), so it does not advance the virtual clock,
and every patient process is started - and records its arrival - at virtual
time 0. -/
def clinic_arrival_times (attending : ℕ) (clinic_minutes : ℚ) : List ℚ :=
  if 0 < attending then List.replicate attending 0 else []

/-- Modelled from the spec: the Clinic Queue Simulator description says
patients arrive spread evenly across the operating window, patient `k`
becoming available at `k * (clinic_minutes / attending)`.  This definition
follows the claim wording, to be compared with `clinic_arrival_times`. -/
def spec_arrival_times (attending : ℕ) (clinic_minutes : ℚ) : List ℚ :=
  (List.range attending).map (fun k => (k : ℚ) * (clinic_minutes / attending))

/-- Theoretical capacity `int(doctors * (clinic_minutes / avg_time))`
computed at line 80 of `_simulate_clinic`. -/
def capacity_patients (doctors : ℕ) (avg_time clinic_minutes : ℚ) : ℤ :=
  pyInt ((doctors : ℚ) * (clinic_minutes / avg_time))

/-- Overflow `max(0, attending - capacity_patients)` computed at line 81 of
`_simulate_clinic`. -/
def overflow_patients (doctors attending : ℕ) (avg_time clinic_minutes : ℚ) : ℤ :=
  max 0 ((attending : ℤ) - capacity_patients doctors avg_time clinic_minutes)

/-! ### Satisfaction and recommendation (`_patient_satisfaction`,
`_recommend_overbooking`) -/

/-- Embedding of `_patient_satisfaction` (lines 86-89): the wait penalty is
clamped at 40, the overflow penalty is `overflow / scheduled * 60` when
`scheduled > 0` and `0` otherwise (the code applies no upper clamp to it). -/
def patient_satisfaction (avg_wait : ℚ) (overflow : ℤ) (scheduled : ℤ) : ℚ :=
  let wait_penalty := min 40 ((avg_wait / 30) * 40)
  let overflow_penalty :=
    if 0 < scheduled then ((overflow : ℚ) / (scheduled : ℚ)) * 60 else 0
  100 - wait_penalty - overflow_penalty

/-- Embedding of `_recommend_overbooking` (lines 92-110): a first-match
decision chain; Python `int()` is truncation toward zero. -/
def recommend_overbooking
    (utilization overflow_rate current avg_appt_time : ℚ) : ℤ :=
  if 90 < utilization ∧ 45 ≤ avg_appt_time then 0
  else if 0 < overflow_rate then max 0 (pyInt (current - 5))
  else if utilization < 70 then min 30 (pyInt (current + 5))
  else if 90 < utilization then max 0 (pyInt (current - 5))
  else pyInt current

/-- Modelled from the claim wording for the Overbooking Recommender: each
branch returns the claimed bound with the result truncated to an integer.
This definition follows the claim, to be compared with
`recommend_overbooking`. -/
def recommend_overbooking_spec
    (utilization overflow_rate current avg_appt_time : ℚ) : ℤ :=
  if 90 < utilization ∧ 45 ≤ avg_appt_time then 0
  else if 0 < overflow_rate then pyInt (max 0 (current - 5))
  else if utilization < 70 then pyInt (min 30 (current + 5))
  else if 90 < utilization then pyInt (max 0 (current - 5))
  else pyInt current

/-! ### Parameter validation in `SimulationService.run_simulation`
(lines 117-139).

Before any simulation work, `run_simulation` checks that each required key
is present and then converts the parameters with `int(...)` / `float(...)`;
the only sign check it performs is `slots <= 0`.  The parameters are
modelled as a structure (all keys present), so the embedded validation is
exactly the `slotsPerDay` check. -/

structure RunSimulationParams where
  date : String
  doctors : ℚ
  slotsPerDay : ℚ
  overbookingPercentage : ℚ
  averageAppointmentTime : ℚ
  clinicHours : ℚ
deriving DecidableEq

/-- Embedding of the validation phase of `run_simulation`: `slots` is
`int(params["slotsPerDay"])`, and the code raises
`ValueError("slotsPerDay must be > 0")` when `slots <= 0`; no sign check is
performed on any other parameter. -/
def run_simulation_validate (p : RunSimulationParams) : Except String ℤ :=
  let slots := pyInt p.slotsPerDay
  if slots ≤ 0 then Except.error "slotsPerDay must be > 0" else Except.ok slots

/-! ### Cohort simulation (`SimulationService.run_simulation_for_cohort`,
lines 239-312).

The function scores the given batch (probabilities `preds`), subsamples it
with `preds.sample(n=scheduled, random_state=42)` when it is larger than
`scheduled`, clips every probability into `[0.05, 0.6]`, and aggregates the
expected attendance.  The seeded pandas subsample is a deterministic
selection of exactly `scheduled` rows; it is modelled here as taking the
first `scheduled` rows (all facts proved below depend only on the length of
the selection, not on which rows are selected). -/

/-- Scheduled count `int(slots * (1 + overbooking_pct / 100.0))` where
`slots = int(params["slotsPerDay"])` (lines 264, 270). -/
def cohort_scheduled (slotsPerDay overbookingPercentage : ℚ) : ℤ :=
  pyInt ((pyInt slotsPerDay : ℚ) * (1 + overbookingPercentage / 100))

/-- Subsample step of `run_simulation_for_cohort` (lines 278-279). -/
def cohort_sample (ps : List ℚ) (scheduled : ℤ) : List ℚ :=
  if scheduled < (ps.length : ℤ) then ps.take scheduled.toNat else ps

/-- `totalPatients = len(preds)` after the subsample step (line 281). -/
def cohort_total_patients (ps : List ℚ) (scheduled : ℤ) : ℕ :=
  (cohort_sample ps scheduled).length

/-- Clipped probabilities `preds["noShowProbability"].clip(0.05, 0.6)`
(line 283). -/
def bounded_probs (ps : List ℚ) : List ℚ := ps.map (clip 0.05 0.6)

/-- High-risk count `int((bounded_probs >= 0.6).sum())` (line 299). -/
def high_risk_count (ps : List ℚ) : ℕ :=
  ((bounded_probs ps).filter (fun p => 0.6 ≤ p)).length

/-- Raw expected attendance `round((1.0 - bounded_probs).sum())` (line 285). -/
def cohort_expected_raw (ps : List ℚ) : ℤ :=
  pyRound (((bounded_probs ps).map (fun p => 1 - p)).sum)

/-- Clamped expected attendance
`max(0, min(expected_attending, scheduled))` (line 286), computed on the
subsampled batch. -/
def cohort_expected_attending (ps : List ℚ) (scheduled : ℤ) : ℤ :=
  max 0 (min (cohort_expected_raw (cohort_sample ps scheduled)) scheduled)

/-! ### Prediction service (`prediction_service.PredictionService`)

The trained classifier is an external artifact (the spec treats it as a
black box exposing a probability per feature row), so the scoring function
is a parameter of the embedding; the pipeline structure - the age filter,
the sort by `(PatientId, ScheduledDay)`, the behavioral aggregates over the
sorted frame, and the positional attachment of the probability vector to
the original frame - is translated from the source. -/

structure PatientRecord where
  patientId : ℕ
  appointmentId : ℕ
  scheduledDay : ℤ
  appointmentDay : ℤ
  age : ℤ
  noShow : ℕ
deriving DecidableEq, Inhabited

/-- Comparison used by `df.sort_values(by=["PatientId", "ScheduledDay"])`:
lexicographic on the pair of keys. -/
def recordKeyLe (a b : PatientRecord) : Bool :=
  a.patientId < b.patientId ||
    (a.patientId == b.patientId && a.scheduledDay ≤ b.scheduledDay)

def insertSorted (r : PatientRecord) : List PatientRecord → List PatientRecord
  | [] => [r]
  | x :: xs => if recordKeyLe r x then r :: x :: xs else x :: insertSorted r xs

/-- Sort of the data frame by `(PatientId, ScheduledDay)` ascending
(`_preprocess_patient_data`, line 105). -/
def sort_values : List PatientRecord → List PatientRecord
  | [] => []
  | x :: xs => insertSorted x (sort_values xs)

/-- Row filtering and sorting performed by `_preprocess_patient_data`
(lines 96 and 105): rows with negative age are dropped, then the frame is
sorted by `(PatientId, ScheduledDay)`. -/
def preprocess_rows (batch : List PatientRecord) : List PatientRecord :=
  sort_values (batch.filter (fun r => 0 ≤ r.age))

/-- Same-patient rows strictly before the current row in the sorted frame:
this is what `df.groupby("PatientId")[...].shift()` ranges over for the
row `r` when `prev` is the list of rows above it. -/
def priorsFor (prev : List PatientRecord) (r : PatientRecord) : List PatientRecord :=
  prev.filter (fun x => x.patientId == r.patientId)

/-- `Past_NoShow_Rate` (lines 116-120): expanding mean of the shifted
outcome column within the patient group, `fillna(0)` when there is no prior
row. -/
def past_noshow_rate (prev : List PatientRecord) (r : PatientRecord) : ℚ :=
  let pr := priorsFor prev r
  if pr.length = 0 then 0
  else ((pr.map (fun x => (x.noShow : ℚ))).sum) / (pr.length : ℚ)

/-- `Missed_Before = (Past_NoShow_Rate > 0).astype(int)` (line 126). -/
def missed_before (prev : List PatientRecord) (r : PatientRecord) : ℕ :=
  if 0 < past_noshow_rate prev r then 1 else 0

/-- `Days_Since_Last_Appt` (lines 129-132): difference in days from the
previous same-patient row, `fillna(0)` when there is none. -/
def days_since_last_appt (prev : List PatientRecord) (r : PatientRecord) : ℤ :=
  match (priorsFor prev r).getLast? with
  | none => 0
  | some x => r.appointmentDay - x.appointmentDay

/-- Probability vector produced inside `predict` (lines 192-204): the
features are built on the filtered and sorted frame, so
`model.predict_proba(...)[:, 1]` is a vector indexed by the SORTED row
order.  The scorer takes the processed frame (features depend on the whole
frame) and the row. -/
def predict_probabilities
    (score : List PatientRecord → PatientRecord → ℚ)
    (batch : List PatientRecord) : List ℚ :=
  let processed := preprocess_rows batch
  processed.map (score processed)

/-- Result assembly in `predict` (lines 207-208): `result` is a copy of the
ORIGINAL frame (original row order) and the numpy probability vector is
assigned to it positionally; pandas raises when the lengths differ (which
happens when the age filter dropped rows), modelled as `none`. -/
def predict (score : List PatientRecord → PatientRecord → ℚ)
    (batch : List PatientRecord) : Option (List (PatientRecord × ℚ)) :=
  let probs := predict_probabilities score batch
  if batch.length = probs.length then some (batch.zip probs) else none

/-- Risk banding applied to each probability in `predict` (lines 209-211). -/
def riskLevel (p : ℚ) : String :=
  if 0.6 ≤ p then "High" else if 0.3 ≤ p then "Medium" else "Low"

/-- Schema alignment `_align_features` (lines 152-173).  A data frame row
is modelled as an association list from column name to value; `none` for
`feature_columns` is the degraded mode in which the function is the
identity.  With a schema, every training column missing from the input is
appended with value 0, then the columns are selected in schema order. -/
def align_features (feature_columns : Option (List String))
    (row : List (String × ℚ)) : List (String × ℚ) :=
  match feature_columns with
  | none => row
  | some cols =>
    let filled := row ++
      (cols.filter (fun c => (row.lookup c).isNone)).map (fun c => (c, (0 : ℚ)))
    cols.map (fun c => (c, ((filled.lookup c).getD 0)))

/-- Concrete scorer used to exhibit the row-alignment behaviour of
`predict`: it returns a value that depends only on the patient identifier,
so the outputs of distinct patients are distinct. -/
def demoScore (processed : List PatientRecord) (r : PatientRecord) : ℚ :=
  (r.patientId : ℚ)

/-- Concrete record of patient 1 (sorts first). -/
def recA : PatientRecord := ⟨1, 1, 0, 0, 30, 0⟩

/-- Concrete record of patient 2 (sorts second). -/
def recB : PatientRecord := ⟨2, 2, 0, 0, 30, 0⟩

/-! ## Theorems -/

theorem ratFloor_eq (q : ℚ) : ratFloor q = ⌊q⌋ := Rat.floor_def.symm

theorem pyInt_of_nonneg {q : ℚ} (h : 0 ≤ q) : pyInt q = ⌊q⌋ := by
  simp [pyInt, h, ratFloor_eq]

theorem pyInt_of_neg {q : ℚ} (h : q < 0) : pyInt q = ⌈q⌉ := by
  simp [pyInt, not_le.mpr h, ratFloor_eq, Int.floor_neg]

theorem pyInt_nonneg {q : ℚ} (h : 0 ≤ q) : 0 ≤ pyInt q := by
  rw [pyInt_of_nonneg h]
  exact Int.floor_nonneg.mpr h

theorem pyInt_intCast (n : ℤ) : pyInt (n : ℚ) = n := by
  rcases le_or_lt 0 (n : ℚ) with h | h
  · rw [pyInt_of_nonneg h, Int.floor_intCast]
  · rw [pyInt_of_neg h, Int.ceil_intCast]

theorem ceil_nonpos_of_neg {q : ℚ} (h : q < 0) : ⌈q⌉ ≤ 0 :=
  Int.ceil_le.mpr (by exact_mod_cast h.le)

theorem pyInt_max_zero (q : ℚ) : pyInt (max 0 q) = max 0 (pyInt q) := by
  rcases le_or_lt 0 q with h | h
  · rw [max_eq_right h, max_eq_right (pyInt_nonneg h)]
  · have h0 : pyInt q ≤ 0 := by
      rw [pyInt_of_neg h]
      exact ceil_nonpos_of_neg h
    rw [max_eq_left h.le, max_eq_left h0]
    simpa using pyInt_intCast 0

theorem pyInt_min_int (n : ℤ) (hn : 0 ≤ n) (q : ℚ) :
    pyInt (min (n : ℚ) q) = min n (pyInt q) := by
  rcases lt_or_le q 0 with h | h
  · have hq : min (n : ℚ) q = q :=
      min_eq_right (h.le.trans (by exact_mod_cast hn))
    rw [hq, pyInt_of_neg h, min_eq_right ((ceil_nonpos_of_neg h).trans hn)]
  · rcases le_or_lt q (n : ℚ) with h2 | h2
    · have hfl : ⌊q⌋ ≤ n := by
        have := Int.floor_le_floor h2
        rwa [Int.floor_intCast] at this
      rw [min_eq_right h2, pyInt_of_nonneg h, min_eq_right hfl]
    · have hfl : n ≤ ⌊q⌋ := Int.le_floor.mpr h2.le
      rw [min_eq_left h2.le, pyInt_intCast, pyInt_of_nonneg h, min_eq_left hfl]

theorem pyInt_min_30 (q : ℚ) : pyInt (min 30 q) = min 30 (pyInt q) := by
  have := pyInt_min_int 30 (by norm_num) q
  simpa using this

/-- C1: the claim states that the i-th probability of the output corresponds
to the i-th AppointmentRecord of the original batch.  In the code the
probability vector is produced in the SORTED row order and then assigned to
the original-order frame positionally, so for a batch that is not already
sorted by `(PatientId, ScheduledDay)` each row receives another row's
probability: with batch `[recB, recA]` the first output row is `recB`
paired with `demoScore recA = 1`, while the score computed for `recB`
itself is `2`. -/
theorem predict_misaligns_rows :
    predict demoScore [recB, recA]
      = some [(recB, 1), (recA, 2)] ∧
    demoScore (preprocess_rows [recB, recA]) recB = 2 ∧
    demoScore (preprocess_rows [recB, recA]) recA = 1 ∧
    (1 : ℚ) ≠ 2 := by
  refine ⟨by decide, by decide, by decide, by decide⟩

/-- C2: the claim states patients arrive spread evenly (patient k at
`k * minutes/attending`).  In the code the interval timeout is discarded,
so every patient arrives at virtual time 0: with attending = 2 and 480
operating minutes the code produces arrival times `[0, 0]` while the spec
formula gives `[0, 240]`. -/
theorem clinic_arrivals_all_zero :
    clinic_arrival_times 2 480 = [0, 0] ∧
    spec_arrival_times 2 480 = [0, 240] ∧
    clinic_arrival_times 2 480 ≠ spec_arrival_times 2 480 := by
  have h1 : clinic_arrival_times 2 480 = [0, 0] := by decide
  have h2 : spec_arrival_times 2 480 = [0, 240] := by
    norm_num [spec_arrival_times, List.range_succ]
  refine ⟨h1, h2, ?_⟩
  rw [h1, h2]
  decide

/-- C3: for every simulation run (overflow produced by the Clinic Queue
Simulator from an attending count that is at most `scheduled`, as at every
call site) with `scheduled > 0`, the satisfaction equals
`100 - min(40, (w/30)*40) - min(60, (overflow/scheduled)*60)`, the overflow
penalty never exceeds 60, and the overflow penalty is 0 when `scheduled`
is 0. -/
theorem satisfaction_formula_on_runs
    (doctors attending : ℕ) (scheduled : ℤ) (w avg_time clinic_minutes : ℚ)
    (hs : 0 < scheduled) (ha : (attending : ℤ) ≤ scheduled)
    (hat : 0 < avg_time) (hcm : 0 ≤ clinic_minutes) :
    patient_satisfaction w
        (overflow_patients doctors attending avg_time clinic_minutes) scheduled
      = 100 - min 40 ((w / 30) * 40)
          - min 60 (((overflow_patients doctors attending avg_time clinic_minutes : ℚ)
              / (scheduled : ℚ)) * 60) ∧
    ((overflow_patients doctors attending avg_time clinic_minutes : ℚ)
        / (scheduled : ℚ)) * 60 ≤ 60 ∧
    patient_satisfaction w
        (overflow_patients doctors attending avg_time clinic_minutes) 0
      = 100 - min 40 ((w / 30) * 40) := by
  have hcap : 0 ≤ capacity_patients doctors avg_time clinic_minutes :=
    pyInt_nonneg (mul_nonneg (Nat.cast_nonneg _) (div_nonneg hcm hat.le))
  have hova : overflow_patients doctors attending avg_time clinic_minutes
      ≤ (attending : ℤ) :=
    max_le (Int.natCast_nonneg _) (sub_le_self _ hcap)
  have hovs : overflow_patients doctors attending avg_time clinic_minutes
      ≤ scheduled := hova.trans ha
  have hs' : (0 : ℚ) < (scheduled : ℚ) := by exact_mod_cast hs
  have hpen : ((overflow_patients doctors attending avg_time clinic_minutes : ℚ)
      / (scheduled : ℚ)) * 60 ≤ 60 := by
    have hdiv : (overflow_patients doctors attending avg_time clinic_minutes : ℚ)
        / (scheduled : ℚ) ≤ 1 :=
      (div_le_one hs').mpr (by exact_mod_cast hovs)
    calc ((overflow_patients doctors attending avg_time clinic_minutes : ℚ)
        / (scheduled : ℚ)) * 60 ≤ 1 * 60 :=
          mul_le_mul_of_nonneg_right hdiv (by norm_num)
      _ = 60 := one_mul 60
  refine ⟨?_, hpen, ?_⟩
  · simp only [patient_satisfaction, if_pos hs, min_eq_right hpen]
  · simp [patient_satisfaction]

/-- Witness for `satisfaction_formula_on_runs`: one doctor, 5 of 10
scheduled patients attending, 30-minute appointments, 480 operating
minutes. -/
theorem satisfaction_formula_on_runs_witness :
    (0 : ℤ) < 10 ∧ ((5 : ℕ) : ℤ) ≤ 10 ∧ (0 : ℚ) < 30 ∧ (0 : ℚ) ≤ 480 ∧
    (patient_satisfaction 0 (overflow_patients 1 5 30 480) 10
      = 100 - min 40 (((0 : ℚ) / 30) * 40)
          - min 60 (((overflow_patients 1 5 30 480 : ℚ) / ((10 : ℤ) : ℚ)) * 60) ∧
     ((overflow_patients 1 5 30 480 : ℚ) / ((10 : ℤ) : ℚ)) * 60 ≤ 60 ∧
     patient_satisfaction 0 (overflow_patients 1 5 30 480) 0
      = 100 - min 40 (((0 : ℚ) / 30) * 40)) :=
  ⟨by decide, by decide, by decide, by decide,
   satisfaction_formula_on_runs 1 5 10 0 30 480
     (by decide) (by decide) (by decide) (by decide)⟩

/-- C4 counterexample: the claim states that non-positive `doctors`,
`averageAppointmentTime` or `clinicHours` each raise a validation error.
The validation phase of `run_simulation` accepts `doctors = 0`,
`averageAppointmentTime = -10` and `clinicHours = 0` as long as
`slotsPerDay` is positive. -/
theorem run_simulation_validate_accepts_nonpositive :
    run_simulation_validate ⟨"2016-05-02", 0, 20, 0, -10, 0⟩ = Except.ok 20 := by
  rfl

/-- C4 amended: `run_simulation` raises a parameter-validation error exactly
when `int(slotsPerDay) ≤ 0`; the other numeric parameters are not
sign-checked by the operation's validation. -/
theorem run_simulation_validate_iff (p : RunSimulationParams) :
    (run_simulation_validate p = Except.error "slotsPerDay must be > 0"
        ↔ pyInt p.slotsPerDay ≤ 0) ∧
    (run_simulation_validate p = Except.ok (pyInt p.slotsPerDay)
        ↔ 0 < pyInt p.slotsPerDay) := by
  unfold run_simulation_validate
  by_cases h : pyInt p.slotsPerDay ≤ 0
  · rw [if_pos h]
    exact ⟨⟨fun _ => h, fun _ => rfl⟩,
      ⟨fun hEq => Except.noConfusion hEq, fun hlt => absurd h (not_le.mpr hlt)⟩⟩
  · rw [if_neg h]
    exact ⟨⟨fun hEq => Except.noConfusion hEq, fun hle => absurd hle h⟩,
      ⟨fun _ => lt_of_not_le h, fun _ => rfl⟩⟩

/-- C5: the Overbooking Recommender agrees everywhere with the first-match
decision procedure written as in the claim (bounds truncated to integers),
returns 0 at utilization 95 with 50-minute appointments for every overflow
rate and current percent, and returns 15 at utilization 50, overflow rate 0
and current percent 10 for every average appointment time. -/
theorem recommend_overbooking_matches_spec :
    (∀ u o c a : ℚ,
      recommend_overbooking u o c a = recommend_overbooking_spec u o c a) ∧
    (∀ o c : ℚ, recommend_overbooking 95 o c 50 = 0) ∧
    (∀ a : ℚ, recommend_overbooking 50 0 10 a = 15) := by
  refine ⟨?_, ?_, ?_⟩
  · intro u o c a
    unfold recommend_overbooking recommend_overbooking_spec
    simp only [pyInt_max_zero, pyInt_min_30]
  · intro o c
    unfold recommend_overbooking
    rw [if_pos ⟨by norm_num, by norm_num⟩]
  · intro a
    unfold recommend_overbooking
    rw [if_neg (by norm_num), if_neg (by norm_num),
      if_pos (by norm_num : (50 : ℚ) < 70)]
    have h15 : pyInt ((10 : ℚ) + 5) = 15 := by
      have h : ((10 : ℚ) + 5) = ((15 : ℤ) : ℚ) := by norm_num
      rw [h, pyInt_intCast]
    rw [h15]
    decide

/-- C6: the risk band is the fixed threshold rule (probability at least 0.6
is High, at least 0.3 and below 0.6 is Medium, below 0.3 is Low), with the
boundary values 0.3 Medium, 0.6 High, 0.2999 Low and 0.5999 Medium. -/
theorem risk_band_thresholds :
    (∀ p : ℚ,
      (riskLevel p = "High" ↔ 0.6 ≤ p) ∧
      (riskLevel p = "Medium" ↔ 0.3 ≤ p ∧ p < 0.6) ∧
      (riskLevel p = "Low" ↔ p < 0.3)) ∧
    riskLevel 0.3 = "Medium" ∧ riskLevel 0.6 = "High" ∧
    riskLevel 0.2999 = "Low" ∧ riskLevel 0.5999 = "Medium" := by
  constructor
  · intro p
    by_cases h6 : (0.6 : ℚ) ≤ p
    · have h3 : (0.3 : ℚ) ≤ p := le_trans (by norm_num) h6
      simp only [riskLevel, if_pos h6]
      exact ⟨⟨fun _ => h6, fun _ => trivial⟩,
        ⟨fun hEq => absurd hEq (by decide), fun hc => absurd h6 (not_le.mpr hc.2)⟩,
        ⟨fun hEq => absurd hEq (by decide),
         fun hc => absurd (lt_of_le_of_lt h6 hc) (by norm_num)⟩⟩
    · by_cases h3 : (0.3 : ℚ) ≤ p
      · have hlt : p < 0.6 := not_le.mp h6
        simp only [riskLevel, if_neg h6, if_pos h3]
        exact ⟨⟨fun hEq => absurd hEq (by decide), fun hc => absurd hc h6⟩,
          ⟨fun _ => ⟨h3, hlt⟩, fun _ => trivial⟩,
          ⟨fun hEq => absurd hEq (by decide),
           fun hc => absurd h3 (not_le.mpr hc)⟩⟩
      · have hlt3 : p < 0.3 := not_le.mp h3
        simp only [riskLevel, if_neg h6, if_neg h3]
        exact ⟨⟨fun hEq => absurd hEq (by decide), fun hc => absurd hc h6⟩,
          ⟨fun hEq => absurd hEq (by decide), fun hc => absurd hc.1 h3⟩,
          ⟨fun _ => hlt3, fun _ => trivial⟩⟩
  · refine ⟨?_, ?_, ?_, ?_⟩
    · norm_num [riskLevel]
    · norm_num [riskLevel]
    · norm_num [riskLevel]
    · norm_num [riskLevel]

theorem lookup_append_some (l₁ l₂ : List (String × ℚ)) (a : String) (v : ℚ)
    (h : l₁.lookup a = some v) : (l₁ ++ l₂).lookup a = some v := by
  induction l₁ with
  | nil => simp [List.lookup] at h
  | cons x t ih =>
    obtain ⟨k, w⟩ := x
    simp only [List.cons_append, List.lookup] at h ⊢
    cases hak : (a == k) with
    | true => simp only [hak] at h ⊢; exact h
    | false => simp only [hak] at h ⊢; exact ih h

theorem lookup_append_none (l₁ l₂ : List (String × ℚ)) (a : String)
    (h : l₁.lookup a = none) : (l₁ ++ l₂).lookup a = l₂.lookup a := by
  induction l₁ with
  | nil => simp
  | cons x t ih =>
    obtain ⟨k, w⟩ := x
    simp only [List.cons_append, List.lookup] at h ⊢
    cases hak : (a == k) with
    | true => simp [hak] at h
    | false => simp only [hak] at h ⊢; exact ih h

theorem lookup_map_zero (l : List String) (c : String) (h : c ∈ l) :
    ((l.map (fun x => (x, (0 : ℚ)))).lookup c) = some 0 := by
  induction l with
  | nil => cases h
  | cons x t ih =>
    simp only [List.map_cons, List.lookup]
    cases hcx : (c == x) with
    | true => rfl
    | false =>
      have hct : c ∈ t := by
        rcases List.mem_cons.mp h with h1 | h1
        · exact absurd (beq_iff_eq.mpr h1) (by simp [hcx])
        · exact h1
      exact ih hct

/-- C7: with a training schema available, the aligned output has exactly the
schema's columns in the schema's order; schema columns missing from the
input appear with value 0 and input columns outside the schema are
dropped (the output row is precisely the schema mapped over lookup with
default 0). -/
theorem align_features_schema_exact (cols : List String)
    (row : List (String × ℚ)) :
    (align_features (some cols) row).map Prod.fst = cols ∧
    align_features (some cols) row
      = cols.map (fun c => (c, ((row.lookup c).getD 0))) := by
  have key : align_features (some cols) row
      = cols.map (fun c => (c, ((row.lookup c).getD 0))) := by
    unfold align_features
    refine List.map_congr_left ?_
    intro c hc
    cases hrc : row.lookup c with
    | some v => rw [lookup_append_some _ _ _ _ hrc]
    | none =>
      have hmem : c ∈ cols.filter (fun c => (row.lookup c).isNone) :=
        List.mem_filter.mpr ⟨hc, by simp [hrc]⟩
      rw [lookup_append_none _ _ _ hrc, lookup_map_zero _ _ hmem]
      rfl
  refine ⟨?_, key⟩
  rw [key, List.map_map]
  have hcomp : (Prod.fst ∘ fun c => (c, ((row.lookup c).getD 0))) = id :=
    funext (fun c => rfl)
  rw [hcomp, List.map_id]

theorem clip_ge_iff (p : ℚ) : (0.6 ≤ clip 0.05 0.6 p) ↔ 0.6 ≤ p := by
  unfold clip
  constructor
  · intro h
    have h2 : (0.6 : ℚ) ≤ max 0.05 p := le_trans h (min_le_right _ _)
    rcases le_max_iff.mp h2 with h3 | h3
    · exact absurd h3 (by norm_num)
    · exact h3
  · intro h
    exact le_min (le_refl _) (le_trans h (le_max_right _ _))

theorem high_risk_count_eq (ps : List ℚ) :
    high_risk_count ps = (ps.filter (fun p => 0.6 ≤ p)).length := by
  unfold high_risk_count bounded_probs
  induction ps with
  | nil => rfl
  | cons a t ih =>
    simp only [List.map_cons, List.filter_cons, decide_eq_true_eq]
    by_cases h : (0.6 : ℚ) ≤ a
    · rw [if_pos ((clip_ge_iff a).mpr h), if_pos h]
      simpa using ih
    · rw [if_neg (fun hc => h ((clip_ge_iff a).mp hc)), if_neg h]
      exact ih

/-- C8: the high-risk count over the clipped probabilities equals the count
of rows whose ORIGINAL probability is at least 0.6 (clipping to the upper
bound 0.6 keeps those rows at the threshold), every clipped probability lies
in `[0.05, 0.6]`, the expected attendance is aggregated from the clipped
probabilities, and the batch `[0.1] * 5 + [0.7] * 5` yields count 5. -/
theorem cohort_clip_highrisk :
    (∀ ps : List ℚ,
      high_risk_count ps = (ps.filter (fun p => 0.6 ≤ p)).length) ∧
    (∀ p : ℚ, 0.05 ≤ clip 0.05 0.6 p ∧ clip 0.05 0.6 p ≤ 0.6) ∧
    (∀ ps : List ℚ, cohort_expected_raw ps
      = pyRound (((ps.map (clip 0.05 0.6)).map (fun p => 1 - p)).sum)) ∧
    high_risk_count [0.1, 0.1, 0.1, 0.1, 0.1, 0.7, 0.7, 0.7, 0.7, 0.7] = 5 := by
  refine ⟨high_risk_count_eq, ?_, fun ps => rfl, ?_⟩
  · intro p
    constructor
    · exact le_min (by norm_num) (le_max_left _ _)
    · exact min_le_left _ _
  · rw [high_risk_count_eq]
    norm_num [List.filter_cons]

theorem priors_empty_zero (prev : List PatientRecord) (r : PatientRecord)
    (h : priorsFor prev r = []) :
    past_noshow_rate prev r = 0 ∧ missed_before prev r = 0 ∧
    days_since_last_appt prev r = 0 := by
  refine ⟨?_, ?_, ?_⟩
  · simp [past_noshow_rate, h]
  · simp [missed_before, past_noshow_rate, h]
  · simp [days_since_last_appt, h]

/-- C9: a row with no same-patient row strictly before it in the sorted
frame gets `past_noshow_rate = 0`, `missed_before = 0` and
`days_since_last_appt = 0`. -/
theorem first_row_zero_features (batch : List PatientRecord) (j : ℕ)
    (hj : j < (preprocess_rows batch).length)
    (hfirst : priorsFor ((preprocess_rows batch).take j)
        ((preprocess_rows batch).getD j default) = []) :
    past_noshow_rate ((preprocess_rows batch).take j)
        ((preprocess_rows batch).getD j default) = 0 ∧
    missed_before ((preprocess_rows batch).take j)
        ((preprocess_rows batch).getD j default) = 0 ∧
    days_since_last_appt ((preprocess_rows batch).take j)
        ((preprocess_rows batch).getD j default) = 0 :=
  priors_empty_zero _ _ hfirst

/-- Witness for `first_row_zero_features`: a singleton batch. -/
theorem first_row_zero_features_witness :
    0 < (preprocess_rows [recA]).length ∧
    priorsFor ((preprocess_rows [recA]).take 0)
        ((preprocess_rows [recA]).getD 0 default) = [] ∧
    (past_noshow_rate ((preprocess_rows [recA]).take 0)
        ((preprocess_rows [recA]).getD 0 default) = 0 ∧
     missed_before ((preprocess_rows [recA]).take 0)
        ((preprocess_rows [recA]).getD 0 default) = 0 ∧
     days_since_last_appt ((preprocess_rows [recA]).take 0)
        ((preprocess_rows [recA]).getD 0 default) = 0) :=
  ⟨by decide, by decide, first_row_zero_features [recA] 0 (by decide) (by decide)⟩

/-- C10: with a non-negative scheduled count, the cohort run scores
`min(batch size, scheduled)` patients (subsampling when the batch is
larger) and the expected attending count is clamped into
`[0, scheduled]`. -/
theorem cohort_subsample_clamp (ps : List ℚ)
    (slotsPerDay overbookingPercentage : ℚ)
    (hsch : 0 ≤ cohort_scheduled slotsPerDay overbookingPercentage) :
    ((cohort_total_patients ps (cohort_scheduled slotsPerDay overbookingPercentage) : ℤ)
        = min ((ps.length : ℤ)) (cohort_scheduled slotsPerDay overbookingPercentage)) ∧
    0 ≤ cohort_expected_attending ps (cohort_scheduled slotsPerDay overbookingPercentage) ∧
    cohort_expected_attending ps (cohort_scheduled slotsPerDay overbookingPercentage)
        ≤ cohort_scheduled slotsPerDay overbookingPercentage := by
  refine ⟨?_, le_max_left _ _, max_le hsch (min_le_right _ _)⟩
  unfold cohort_total_patients cohort_sample
  split_ifs with h
  · rw [List.length_take]
    push_cast [Int.toNat_of_nonneg hsch]
    omega
  · omega

theorem pyInt_eval {q : ℚ} {n : ℤ} (h : q = (n : ℚ)) : pyInt q = n := by
  rw [h, pyInt_intCast]

theorem cohort_scheduled_one : cohort_scheduled 1 0 = 1 := by
  unfold cohort_scheduled
  rw [pyInt_eval (show (1 : ℚ) = ((1 : ℤ) : ℚ) by norm_num)]
  exact pyInt_eval (by norm_num)

/-- Witness for `cohort_subsample_clamp`: two patients with probability 1/2
each, one slot, no overbooking. -/
theorem cohort_subsample_clamp_witness :
    0 ≤ cohort_scheduled 1 0 ∧
    (((cohort_total_patients [1/2, 1/2] (cohort_scheduled 1 0) : ℤ)
        = min ((([1/2, 1/2] : List ℚ).length : ℤ)) (cohort_scheduled 1 0)) ∧
     0 ≤ cohort_expected_attending [1/2, 1/2] (cohort_scheduled 1 0) ∧
     cohort_expected_attending [1/2, 1/2] (cohort_scheduled 1 0)
        ≤ cohort_scheduled 1 0) :=
  ⟨by rw [cohort_scheduled_one]; decide,
   cohort_subsample_clamp [1/2, 1/2] 1 0 (by rw [cohort_scheduled_one]; decide)⟩
